import Mathlib

/-!
Verification of the of-watchdog forking executor
(`src/executor/forking_runner.go`).

The Go function `ForkFunctionRunner.Run` is embedded as a pure Lean
function of the request, the runner configuration, and an `OSBehavior`
oracle describing what the operating system does for this invocation
(whether the stderr pipe is created, whether the child starts, how long
the child runs, its exit code, and the invoker's own environment).
Alongside the Go return value (an optional error string) the embedding
produces a `RunTrace` recording the observable side effects the spec
talks about: how often the input stream is closed, what was handed to
the logging-pipe binder, whether a deadline context was created, whether
the child was waited on or killed, and the environment the child
observes.
-/

/-- FunctionRequest stores a request for function execution.
Go values that can be nil are modelled with `Option`:
`Environment` is `Option (List String)` where `none` models a nil
`[]string` slice and `some []` an empty non-nil slice, `InputReader` is
an optional stream handle (a nil `io.ReadCloser` is `none`), and
`ContentLength` is an optional `Int` (a nil `*int64` is `none`). -/
structure FunctionRequest where
  Process : String
  ProcessArgs : List String
  Environment : Option (List String)
  InputReader : Option Nat
  OutputWriter : Nat
  ContentLength : Option Int
deriving Repr, DecidableEq

/-- ForkFunctionRunner forks a process for each invocation.
`ExecTimeout` is a Go `time.Duration`, i.e. a signed number of
nanoseconds, modelled as `Int`.  `logPrefixFlag` models the Go field
named `LogPrefix`. -/
structure ForkFunctionRunner where
  ExecTimeout : Int
  logPrefixFlag : Bool
  LogBufferSize : Nat
deriving Repr, DecidableEq

/-- Behaviour of the operating system for one invocation: the result of
`cmd.StderrPipe()` (a pipe handle or an error), the result of
`cmd.Start()` (`none` means the start succeeded), the wall-clock
nanoseconds the child would take to run to completion, the exit code
the child exits with when it completes, and the invoker's own
environment, which per the `os/exec` contract the child inherits when
`cmd.Env` is nil. -/
structure OSBehavior where
  stderrPipe : Except String Nat
  startError : Option String
  childRunNanos : Nat
  exitCode : Nat
  invokerEnv : List String
deriving Repr

/-- Observable side effects of one call to `Run`. -/
structure RunTrace where
  deadline : Option Nat
  binderCalled : Bool
  binderSource : Option Nat
  binderPrefixed : Bool
  binderBuf : Nat
  started : Bool
  waited : Bool
  killed : Bool
  inputCloses : Nat
  childEnv : Option (List String)
deriving Repr, DecidableEq

/-- Seconds with two decimal places, as Go prints a `%.2f` of
`done.Seconds()`: nanoseconds rounded to centiseconds, printed as
`whole.fraction` with the fraction zero-padded to two digits. -/
def fmtSeconds2 (nanos : Nat) : String :=
  let cs := (nanos + 5000000) / 10000000
  let whole := cs / 100
  let frac := cs % 100
  toString whole ++ "." ++ (if frac < 10 then "0" ++ toString frac else toString frac)

/-- Error text `cmd.Wait()` yields for a completed child: `none` for exit
status 0, otherwise Go's `exit status N` message. -/
def exitCause (code : Nat) : Option String :=
  if code = 0 then none else some ("exit status " ++ toString code)

/-- The deadline, in nanoseconds, that `Run` installs: the Go code builds
a `context.WithTimeout` exactly when `f.ExecTimeout > time.Millisecond*0`,
i.e. when the timeout is strictly positive; otherwise the background
context with no deadline is used. -/
def deadlineOf (f : ForkFunctionRunner) : Option Nat :=
  if 0 < f.ExecTimeout then some f.ExecTimeout.toNat else none

/-- Outcome of `cmd.Wait()` under `exec.CommandContext`: if a deadline is
installed and it expires before the child exits, the child is killed and
the wait reports `signal: killed` at the deadline instant; otherwise the
wait reports the child's own exit at its natural completion time.
Returns (wait error, elapsed nanoseconds, whether the child was killed). -/
def waitOutcome (deadline : Option Nat) (runNanos : Nat) (code : Nat) :
    Option String × Nat × Bool :=
  match deadline with
  | some d =>
      if d < runNanos then (some "signal: killed", d, true)
      else (exitCause code, runNanos, false)
  | none => (exitCause code, runNanos, false)

/-- The descriptive failure `Run` builds with
`fmt.Errorf("%s exited: after %.2fs, error: %s", req.Process,
done.Seconds(), err)`. -/
def runError (process : String) (elapsedNanos : Nat) (cause : String) : String :=
  process ++ " exited: after " ++ fmtSeconds2 elapsedNanos ++ "s, error: " ++ cause

/-- Run forks a process for one invocation, following
`(*ForkFunctionRunner).Run` line by line: install a deadline context iff
the configured timeout is positive; register a deferred close of the
input reader when one is present; set `cmd.Env` and `cmd.Stdout`; create
the stderr pipe, discarding any error; hand the (possibly nil) pipe to
the logging binder; start the child, returning the start error as-is on
failure; otherwise wait, and wrap any wait error in the descriptive
`runError` format. -/
def ForkFunctionRunner.Run (f : ForkFunctionRunner) (req : FunctionRequest)
    (os : OSBehavior) : Option String × RunTrace :=
  let deadline := deadlineOf f
  let errPipe : Option Nat :=
    match os.stderrPipe with
    | Except.ok h => some h
    | Except.error _ => none
  let closes : Nat := if req.InputReader.isSome then 1 else 0
  match os.startError with
  | some e =>
      (some e,
       RunTrace.mk deadline true errPipe f.logPrefixFlag f.LogBufferSize
         false false false closes none)
  | none =>
      let w := waitOutcome deadline os.childRunNanos os.exitCode
      let res : Option String :=
        match w.1 with
        | some c => some (runError req.Process w.2.1 c)
        | none => none
      (res,
       RunTrace.mk deadline true errPipe f.logPrefixFlag f.LogBufferSize
         true true w.2.2 closes (some (req.Environment.getD os.invokerEnv)))

/-- A runner with the timeout disabled. -/
def runnerA : ForkFunctionRunner := ForkFunctionRunner.mk 0 false 256

/-- A runner with a one-second timeout. -/
def runnerT : ForkFunctionRunner := ForkFunctionRunner.mk 1000000000 true 1024

/-- A request with an input stream and an empty non-nil environment. -/
def reqA : FunctionRequest :=
  FunctionRequest.mk "handler" ["a"] (some []) (some 1) 7 none

/-- A request with a nil environment and no input stream. -/
def reqB : FunctionRequest :=
  FunctionRequest.mk "handler" [] none none 7 (some 42)

/-- OS behaviour: everything succeeds, the child exits 0 after half a second. -/
def osOk : OSBehavior := OSBehavior.mk (Except.ok 3) none 500000000 0 ["PATH=/bin"]

/-- OS behaviour: the child exits 1 after one and a half seconds. -/
def osFail : OSBehavior := OSBehavior.mk (Except.ok 3) none 1500000000 1 ["PATH=/bin"]

/-- OS behaviour: the start fails with a bare error. -/
def osStartFail : OSBehavior :=
  OSBehavior.mk (Except.ok 3) (some "boom") 0 0 ["PATH=/bin"]

/-- OS behaviour: the child would run three seconds, past runnerT's deadline. -/
def osSlow : OSBehavior := OSBehavior.mk (Except.ok 3) none 3000000000 0 ["PATH=/bin"]

/-- OS behaviour: stderr pipe creation fails. -/
def osNoPipe : OSBehavior :=
  OSBehavior.mk (Except.error "pipe failed") none 500000000 0 ["PATH=/bin"]

/-- Helper: the trace always records exactly the deadline `Run` installed. -/
theorem run_trace_deadline (f : ForkFunctionRunner) (req : FunctionRequest)
    (os : OSBehavior) : (f.Run req os).2.deadline = deadlineOf f := by
  unfold ForkFunctionRunner.Run
  cases hs : os.startError <;> rfl

/-- C1: if the child starts, exits with status 0, and, whenever a deadline
is configured, exits no later than that deadline, then Run returns
success (a nil error). -/
theorem run_exit_zero_success (f : ForkFunctionRunner) (req : FunctionRequest)
    (os : OSBehavior) (hs : os.startError = none) (h0 : os.exitCode = 0)
    (hd : 0 < f.ExecTimeout → os.childRunNanos ≤ f.ExecTimeout.toNat) :
    (f.Run req os).1 = none := by
  unfold ForkFunctionRunner.Run
  rw [hs]
  unfold waitOutcome deadlineOf
  by_cases ht : 0 < f.ExecTimeout
  · simp [ht, Nat.not_lt.mpr (hd ht), exitCause, h0]
  · simp [ht, exitCause, h0]

/-- Witness for C1: a half-second child under a one-second timeout
succeeds. -/
theorem run_exit_zero_success_witness :
    osOk.startError = none ∧ osOk.exitCode = 0 ∧
      (runnerT.Run reqA osOk).1 = none :=
  ⟨rfl, rfl, run_exit_zero_success runnerT reqA osOk rfl rfl (fun _ => by decide)⟩

/-- C2 counterexample: on a start failure Run returns the bare start
error, which carries neither the program name nor the two-decimal
elapsed-seconds failure format the claim requires of every failing
invocation. -/
theorem run_error_format_counterexample :
    (runnerA.Run reqA osStartFail).1 = some "boom" ∧
      ¬ ("handler".data <:+: "boom".data) ∧
      ¬ (" exited: after ".data <:+: "boom".data) :=
  ⟨rfl, by decide, by decide⟩

/-- C2 (amended): every failure arising after a successful start
(non-zero exit, kill due to the deadline, wait-level OS error) is
returned as the single descriptive error carrying the program name, the
elapsed seconds in two-decimal format, and the underlying cause text;
a start failure is instead returned as the bare start error. -/
theorem run_wait_error_format (f : ForkFunctionRunner) (req : FunctionRequest)
    (os : OSBehavior) (hs : os.startError = none) (c : String) (e : Nat)
    (k : Bool)
    (hw : waitOutcome (deadlineOf f) os.childRunNanos os.exitCode = (some c, e, k)) :
    (f.Run req os).1 = some (runError req.Process e c) := by
  unfold ForkFunctionRunner.Run
  rw [hs]
  simp [hw]

/-- Witness for C2's amended theorem: a child exiting 1 after 1.5 seconds
yields the descriptive error. -/
theorem run_wait_error_format_witness :
    (runnerA.Run reqA osFail).1 =
      some (runError "handler" 1500000000 "exit status 1") :=
  run_wait_error_format runnerA reqA osFail rfl "exit status 1" 1500000000
    false (by decide)

/-- C3: when an input stream is present it is closed exactly once by the
time Run returns, on every exit path (any start result, any wait
outcome). -/
theorem run_closes_input_once (f : ForkFunctionRunner) (req : FunctionRequest)
    (os : OSBehavior) (h : req.InputReader.isSome = true) :
    (f.Run req os).2.inputCloses = 1 := by
  unfold ForkFunctionRunner.Run
  cases hs : os.startError <;> simp [h]

/-- Witness for C3 on the start-failure path. -/
theorem run_closes_input_once_witness :
    reqA.InputReader.isSome = true ∧
      (runnerA.Run reqA osStartFail).2.inputCloses = 1 :=
  ⟨rfl, run_closes_input_once runnerA reqA osStartFail rfl⟩

/-- C4: with a positive timeout, if the child has not exited when the
deadline expires it is force-terminated and Run returns the descriptive
failure carrying the elapsed time (the deadline duration); it never
returns success in that case. -/
theorem run_deadline_kills (f : ForkFunctionRunner) (req : FunctionRequest)
    (os : OSBehavior) (ht : 0 < f.ExecTimeout) (hs : os.startError = none)
    (hd : f.ExecTimeout.toNat < os.childRunNanos) :
    (f.Run req os).2.killed = true ∧
      (f.Run req os).1 =
        some (runError req.Process f.ExecTimeout.toNat "signal: killed") := by
  unfold ForkFunctionRunner.Run
  rw [hs]
  simp [waitOutcome, deadlineOf, ht, hd]

/-- Witness for C4: a three-second child under a one-second timeout is
killed and reported as a failure after one second. -/
theorem run_deadline_kills_witness :
    0 < runnerT.ExecTimeout ∧
      (runnerT.Run reqB osSlow).2.killed = true ∧
      (runnerT.Run reqB osSlow).1 =
        some (runError "handler" 1000000000 "signal: killed") := by
  have h := run_deadline_kills runnerT reqB osSlow (by decide) rfl (by decide)
  exact ⟨by decide, h.1, h.2⟩

/-- C5: a deadline context bounding the child's lifetime is installed if
and only if the configured timeout is strictly positive; a zero or
negative timeout leaves the lifetime unbounded. -/
theorem run_deadline_iff (f : ForkFunctionRunner) (req : FunctionRequest)
    (os : OSBehavior) :
    (f.Run req os).2.deadline.isSome = true ↔ 0 < f.ExecTimeout := by
  rw [run_trace_deadline]
  unfold deadlineOf
  by_cases h : 0 < f.ExecTimeout <;> simp [h]

/-- C6: if the start fails, Run returns the start error itself and does
not wait on the child or process the invocation further. -/
theorem run_start_failure (f : ForkFunctionRunner) (req : FunctionRequest)
    (os : OSBehavior) (e : String) (hs : os.startError = some e) :
    (f.Run req os).1 = some e ∧ (f.Run req os).2.waited = false ∧
      (f.Run req os).2.started = false := by
  unfold ForkFunctionRunner.Run
  rw [hs]
  exact ⟨rfl, rfl, rfl⟩

/-- Witness for C6: a start error "boom" is returned as-is, unwaited. -/
theorem run_start_failure_witness :
    osStartFail.startError = some "boom" ∧
      (runnerA.Run reqB osStartFail).1 = some "boom" ∧
      (runnerA.Run reqB osStartFail).2.waited = false :=
  ⟨rfl, (run_start_failure runnerA reqB osStartFail "boom" rfl).1,
    (run_start_failure runnerA reqB osStartFail "boom" rfl).2.1⟩

/-- C7: a non-nil environment slice is the child's entire environment,
never merged with the invoker's own; in particular an empty sequence
yields an empty child environment. -/
theorem run_env_override (f : ForkFunctionRunner) (req : FunctionRequest)
    (os : OSBehavior) (xs : List String) (he : req.Environment = some xs)
    (hs : os.startError = none) :
    (f.Run req os).2.childEnv = some xs := by
  unfold ForkFunctionRunner.Run
  rw [hs]
  simp [he]

/-- Witness for C7: with an empty non-nil environment and a non-empty
invoker environment, the child observes the empty environment. -/
theorem run_env_override_witness :
    reqA.Environment = some [] ∧ osOk.invokerEnv = ["PATH=/bin"] ∧
      (runnerA.Run reqA osOk).2.childEnv = some [] :=
  ⟨rfl, rfl, run_env_override runnerA reqA osOk [] rfl rfl⟩

/-- C8: two requests that differ only in ContentLength produce identical
behaviour: the same result and the same side-effect trace. -/
theorem run_ignores_content_length (f : ForkFunctionRunner)
    (req : FunctionRequest) (os : OSBehavior) (c₁ c₂ : Option Int) :
    f.Run (FunctionRequest.mk req.Process req.ProcessArgs req.Environment
        req.InputReader req.OutputWriter c₁) os =
      f.Run (FunctionRequest.mk req.Process req.ProcessArgs req.Environment
        req.InputReader req.OutputWriter c₂) os := rfl

/-- C9: a nil environment (absent, not empty) makes the child inherit
the invoker's entire environment, unlike the empty case. -/
theorem run_env_inherit (f : ForkFunctionRunner) (req : FunctionRequest)
    (os : OSBehavior) (he : req.Environment = none) (hs : os.startError = none) :
    (f.Run req os).2.childEnv = some os.invokerEnv := by
  unfold ForkFunctionRunner.Run
  rw [hs]
  simp [he]

/-- Witness for C9: a nil environment inherits the invoker's non-empty
environment, which differs from the empty environment. -/
theorem run_env_inherit_witness :
    reqB.Environment = none ∧
      (runnerA.Run reqB osOk).2.childEnv = some ["PATH=/bin"] ∧
      (runnerA.Run reqB osOk).2.childEnv ≠ some [] :=
  ⟨rfl, run_env_inherit runnerA reqB osOk rfl rfl, by decide⟩

/-- C10: a stderr-pipe creation failure is silently discarded: the
logging binder is still invoked, with a nil source stream, and Run's
result is the same as if the pipe had been created. -/
theorem run_ignores_pipe_error (f : ForkFunctionRunner) (req : FunctionRequest)
    (os : OSBehavior) (e : String) (h : Nat) (hp : os.stderrPipe = Except.error e) :
    (f.Run req os).2.binderCalled = true ∧
      (f.Run req os).2.binderSource = none ∧
      (f.Run req os).1 =
        (f.Run req (OSBehavior.mk (Except.ok h) os.startError os.childRunNanos
          os.exitCode os.invokerEnv)).1 := by
  unfold ForkFunctionRunner.Run
  cases hs : os.startError <;> simp [hp, hs]

/-- Witness for C10: with pipe creation failing, the binder gets a nil
source and the result matches the successful-pipe run. -/
theorem run_ignores_pipe_error_witness :
    osNoPipe.stderrPipe = Except.error "pipe failed" ∧
      (runnerA.Run reqB osNoPipe).2.binderSource = none ∧
      (runnerA.Run reqB osNoPipe).1 =
        (runnerA.Run reqB (OSBehavior.mk (Except.ok 3) none 500000000 0
          ["PATH=/bin"])).1 := by
  have h := run_ignores_pipe_error runnerA reqB osNoPipe "pipe failed" 3 rfl
  exact ⟨rfl, h.2.1, h.2.2⟩
